import Mathlib

/-!
Shallow embedding of the student-dashboard backend's enrollment and
administration logic.

The repository contains two HTTP servers that share one conceptual data
model:
* a database-backed Express router (`src/courses.js` first half,
  `src/students.js`, `src/unnamed/part_000`) whose `Course` documents
  (`src/Course.js`) carry `capacity` and `isActive`;
* an in-memory demo server (`src/courses.js` second half) operating on
  the `demoUsers` / `demoCourses` objects.

Both are modelled over the same `State` (a list of users and a list of
courses keyed by numeric ids, standing for Mongo ObjectIds / demo string
ids).  Each handler below is translated directly from its source
function; authentication middleware (`protect` / `validateSimpleToken`)
is modelled by passing the authenticated caller's id explicitly, which
is exactly what the middleware supplies as `req.user.id`.
-/

namespace StudentDashboard

/-- Roles of `User.role` (`'student' | 'admin' | 'instructor'`). -/
inductive Role where
  | student
  | admin
  | instructor
deriving DecidableEq

/-- A user record (`src/courses.js` demoUsers shape / the User model
referenced by the routers).  `password` is `Option` so that a response
object from which the password key was deleted is the same record with
`password := none`. -/
structure User where
  id : Nat
  name : String
  email : String
  password : Option String
  role : Role
  studentId : Option String
  department : String
  semester : Nat
  phone : Option String
  address : Option String
  profileImage : Option String
  isActive : Bool
  enrolledCourses : List Nat
deriving DecidableEq

/-- A course record (`src/Course.js` schema, restricted to the fields the
modelled handlers read: id, capacity, isActive, enrolledStudents).  The
demo server's course objects carry no `capacity`/`isActive`; its handlers
below never read those fields. -/
structure Course where
  id : Nat
  courseCode : String
  capacity : Nat
  isActive : Bool
  enrolledStudents : List Nat
deriving DecidableEq

/-- The two record stores. -/
structure State where
  users : List User
  courses : List Course
deriving DecidableEq

/-- Outcome of an enroll/unenroll request, named after the spec's error
taxonomy; the code's HTTP mapping is noted on each constructor. -/
inductive EnrollResult where
  /-- 404 "Course not found" -/
  | notFound
  /-- 400 "Course is not active" -/
  | inactive
  /-- 400 "Already enrolled" / "Not enrolled in this course" -/
  | conflict
  /-- 400 "Course is full" -/
  | capacityExceeded
  /-- 200 success -/
  | ok
  /-- 500 "Server error" (store fault) -/
  | serverFault
deriving DecidableEq

/-- `Course.findById` / `demoCourses.find(c => c.id === ...)`. -/
def findCourse (st : State) (cid : Nat) : Option Course :=
  st.courses.find? (fun c => c.id = cid)

/-- `User.findById` / `demoUsers[...]` lookup by id. -/
def findUser (st : State) (uid : Nat) : Option User :=
  st.users.find? (fun u => u.id = uid)

/-- `course.save()`: write back the (modified) course document under its
id. -/
def setCourse (st : State) (c : Course) : State :=
  { st with courses := st.courses.map (fun d => if d.id = c.id then c else d) }

/-- `User.findByIdAndUpdate(uid, ...)` / in-place mutation of the user
object held in `demoUsers`. -/
def updateUser (st : State) (uid : Nat) (f : User → User) : State :=
  { st with users := st.users.map (fun u => if u.id = uid then f u else u) }

/-- Mongo `$addToSet`. -/
def addToSet (l : List Nat) (x : Nat) : List Nat :=
  if x ∈ l then l else l ++ [x]

/-- Mongo `$pull` / `Array.prototype.filter` removing every occurrence. -/
def pull (l : List Nat) (x : Nat) : List Nat :=
  l.filter (fun y => y ≠ x)

/-- `router.post('/:id/enroll')` (`src/courses.js` lines 239-296,
database-backed).  `uid` is the authenticated student's `req.user.id`.
Guards in source order: course missing → 404; `!course.isActive` → 400
inactive; already in `enrolledStudents` → 400 conflict; roster length
`>= capacity` → 400 full; otherwise push the student onto the roster,
save, then `$addToSet` the course onto the student's `enrolledCourses`. -/
def dbEnroll (st : State) (uid cid : Nat) : EnrollResult × State :=
  match findCourse st cid with
  | none => (.notFound, st)
  | some course =>
    if course.isActive = false then (.inactive, st)
    else if uid ∈ course.enrolledStudents then (.conflict, st)
    else if course.capacity ≤ course.enrolledStudents.length then (.capacityExceeded, st)
    else
      let st1 := setCourse st { course with enrolledStudents := course.enrolledStudents ++ [uid] }
      let st2 := updateUser st1 uid (fun u => { u with enrolledCourses := addToSet u.enrolledCourses cid })
      (.ok, st2)

/-- The same handler with the possibility of a store fault between its two
writes: `course.save()` has succeeded and `User.findByIdAndUpdate` throws,
landing in the `catch` block (500 "Server error enrolling in course").
There is no transaction or rollback in the source, so the roster write
survives.  `dbEnrollWithFault st uid cid false = dbEnroll st uid cid`. -/
def dbEnrollWithFault (st : State) (uid cid : Nat) (faultBetweenWrites : Bool) :
    EnrollResult × State :=
  match findCourse st cid with
  | none => (.notFound, st)
  | some course =>
    if course.isActive = false then (.inactive, st)
    else if uid ∈ course.enrolledStudents then (.conflict, st)
    else if course.capacity ≤ course.enrolledStudents.length then (.capacityExceeded, st)
    else
      let st1 := setCourse st { course with enrolledStudents := course.enrolledStudents ++ [uid] }
      if faultBetweenWrites then (.serverFault, st1)
      else
        (.ok, updateUser st1 uid (fun u => { u with enrolledCourses := addToSet u.enrolledCourses cid }))

/-- `router.post('/:id/unenroll')` (`src/courses.js` lines 301-343).
Course missing → 404; student not in roster → 400 conflict; otherwise
filter the student out of the roster, save, then `$pull` the course from
the student's `enrolledCourses`. -/
def dbUnenroll (st : State) (uid cid : Nat) : EnrollResult × State :=
  match findCourse st cid with
  | none => (.notFound, st)
  | some course =>
    if uid ∈ course.enrolledStudents then
      let st1 := setCourse st { course with enrolledStudents := pull course.enrolledStudents uid }
      let st2 := updateUser st1 uid (fun u => { u with enrolledCourses := pull u.enrolledCourses cid })
      (.ok, st2)
    else (.conflict, st)

/-- `app.post('/api/courses/:id/enroll')` (`src/courses.js` lines
654-708, demo server).  After the token/role checks: course missing →
404; already in roster → 400 conflict; otherwise push onto the roster
and push the course id onto the user's `enrolledCourses`.  The handler
performs no capacity check and no isActive check. -/
def demoEnroll (st : State) (uid cid : Nat) : EnrollResult × State :=
  match findCourse st cid with
  | none => (.notFound, st)
  | some course =>
    if uid ∈ course.enrolledStudents then (.conflict, st)
    else
      let st1 := setCourse st { course with enrolledStudents := course.enrolledStudents ++ [uid] }
      let st2 := updateUser st1 uid (fun u => { u with enrolledCourses := u.enrolledCourses ++ [cid] })
      (.ok, st2)

/-- `app.post('/api/courses/:id/unenroll')` (`src/courses.js` lines
711-754, demo server).  Course missing → 404; not in roster → 400
conflict; otherwise filter the student out of the roster and the course
out of the user's `enrolledCourses`. -/
def demoUnenroll (st : State) (uid cid : Nat) : EnrollResult × State :=
  match findCourse st cid with
  | none => (.notFound, st)
  | some course =>
    if uid ∈ course.enrolledStudents then
      let st1 := setCourse st { course with enrolledStudents := pull course.enrolledStudents uid }
      let st2 := updateUser st1 uid (fun u => { u with enrolledCourses := pull u.enrolledCourses cid })
      (.ok, st2)
    else (.conflict, st)

/-- `router.put('/users/:id/status')` (`src/unnamed/part_000` lines
116-154).  `callerId` is the acting admin's `req.user.id` (the
`authorize('admin')` middleware has already passed).  Target missing →
404; target is the caller → 400 "Cannot deactivate your own account"
with no mutation; otherwise toggle `isActive` and save.  Returns the
HTTP status the handler sends. -/
def updateStatus (st : State) (callerId targetId : Nat) : Nat × State :=
  match findUser st targetId with
  | none => (404, st)
  | some user =>
    if user.id = callerId then (400, st)
    else (200, updateUser st user.id (fun u => { u with isActive := !u.isActive }))

/-- `router.put('/users/:id/role')` (`src/unnamed/part_000` lines
156-210).  `role = none` models a missing or invalid `role` in the body
(400 "Valid role is required").  Target missing → 404; target is the
caller → 400 "Cannot change your own role" with no mutation; otherwise
assign `user.role = role` and then — as in the source — test
`user.role === 'student' && role !== 'student'` on the already
reassigned field before clearing the student-specific fields. -/
def updateRole (st : State) (callerId targetId : Nat) (role : Option Role) :
    Nat × State :=
  match role with
  | none => (400, st)
  | some r =>
    match findUser st targetId with
    | none => (404, st)
    | some user =>
      if user.id = callerId then (400, st)
      else
        (200, updateUser st user.id (fun u =>
          let u1 := { u with role := r }
          if u1.role = Role.student ∧ r ≠ Role.student then
            { u1 with studentId := none, department := "General", semester := 1 }
          else u1))

/-- `router.delete('/users/:id')` (`src/unnamed/part_000` lines 212-254).
Target missing → 404; target is the caller → 400 "Cannot delete your own
account"; otherwise `Course.updateMany({enrolledStudents: user._id},
{$pull: {enrolledStudents: user._id}})` followed by `user.deleteOne()`. -/
def deleteUser (st : State) (callerId targetId : Nat) : Nat × State :=
  match findUser st targetId with
  | none => (404, st)
  | some user =>
    if user.id = callerId then (400, st)
    else
      (200,
        { users := st.users.filter (fun u => u.id ≠ user.id),
          courses := st.courses.map (fun c =>
            { c with enrolledStudents := pull c.enrolledStudents user.id }) })

/-- A profile-update request body.  Each field is `some v` when the
corresponding key is present in `req.body` and `none` when absent.  The
handlers only ever read these keys. -/
structure ProfileBody where
  name : Option String
  department : Option String
  semester : Option Nat
  phone : Option String
  address : Option String
  profileImage : Option String
  email : Option String
  role : Option Role
  password : Option String
  studentId : Option String
deriving DecidableEq

/-- Apply a body to a user record: every key present in the body replaces
the user's field (`findByIdAndUpdate(uid, updates)` / the demo server's
per-key assignment loop). -/
def applyProfileBody (b : ProfileBody) (u : User) : User :=
  { u with
    name := b.name.getD u.name,
    department := b.department.getD u.department,
    semester := b.semester.getD u.semester,
    phone := match b.phone with | some v => some v | none => u.phone,
    address := match b.address with | some v => some v | none => u.address,
    profileImage := match b.profileImage with | some v => some v | none => u.profileImage,
    email := b.email.getD u.email,
    role := b.role.getD u.role,
    password := match b.password with | some v => some v | none => u.password,
    studentId := match b.studentId with | some v => some v | none => u.studentId }

/-- `router.put('/profile')` (`src/students.js` lines 38-83): copy the
body, `delete updates.email; delete updates.role; delete
updates.password; delete updates.studentId;`, then
`User.findByIdAndUpdate(req.user.id, updates)`. -/
def studentProfileUpdate (st : State) (uid : Nat) (b : ProfileBody) : State :=
  let updates := { b with email := none, role := none, password := none, studentId := none }
  updateUser st uid (applyProfileBody updates)

/-- `app.put('/api/students/profile')` (`src/courses.js` lines 855-891,
demo server): for each key of the body other than `email`, `password`
and `role`, assign it onto the user object. -/
def demoProfileUpdate (st : State) (uid : Nat) (b : ProfileBody) : State :=
  let updates := { b with email := none, password := none, role := none }
  updateUser st uid (applyProfileBody updates)

/-- `delete userResponse.password` / `.select('-password')`: the user
object as placed in a response. -/
def sanitizeUser (u : User) : User :=
  { u with password := none }

/-- `app.post('/api/auth/login')` (`src/courses.js` lines 517-546): look
the user up by email, reject a wrong password, and respond with a copy of
the user from which the password key was deleted.  Returns the response's
`user` object on success. -/
def login (st : State) (email pw : String) : Option User :=
  match st.users.find? (fun u => u.email = email) with
  | none => none
  | some user =>
    if user.password = some pw then some (sanitizeUser user) else none

/-- `app.post('/api/auth/register')` (`src/courses.js` lines 549-594):
reject a duplicate email, build the new user (password stored), append it
to the store, and respond with a password-deleted copy.  Returns the
response's `user` object and the new state. -/
def register (st : State) (name email pw : String) (role : Role) (sid : Option String) :
    Option (User × State) :=
  match st.users.find? (fun u => u.email = email) with
  | some _ => none
  | none =>
    let newUser : User :=
      { id := st.users.length + 1, name := name, email := email,
        password := some pw, role := role,
        studentId := if role = Role.student then sid else none,
        department := "General", semester := 1,
        phone := none, address := none,
        profileImage := some "https://via.placeholder.com/150",
        isActive := true, enrolledCourses := [] }
    some (sanitizeUser newUser, { st with users := st.users ++ [newUser] })

/-- `app.get('/api/auth/me')` and `app.get('/api/students/profile')`
(`src/courses.js` lines 597-623 and 819-852) and `router.get('/profile')`
(`src/students.js` lines 8-36, via `.select('-password')`): the response
`user` object for an authenticated user. -/
def currentUserResponse (u : User) : User :=
  sanitizeUser u

/-- `app.get('/api/admin/users')` (`src/courses.js` lines 896-926,
destructuring away `password`) and `router.get('/users')`
(`src/unnamed/part_000` lines 7-65, `.select('-password')`): the
response's `users` list. -/
def adminUsersList (st : State) : List User :=
  st.users.map sanitizeUser

/-- Spec §8: "For all courses, `enrolledCount ≤ capacity` always holds." -/
def CapInv (st : State) : Prop :=
  ∀ c ∈ st.courses, c.enrolledStudents.length ≤ c.capacity

/-- Spec §3/§8: bidirectional consistency — a student id is in a course's
roster iff that course id is in the student's `enrolledCourses`. -/
def BidirInv (st : State) : Prop :=
  ∀ u ∈ st.users, ∀ c ∈ st.courses,
    (u.id ∈ c.enrolledStudents ↔ c.id ∈ u.enrolledCourses)

instance : DecidablePred CapInv := fun st =>
  inferInstanceAs (Decidable (∀ c ∈ st.courses, _))

instance : DecidablePred BidirInv := fun st =>
  inferInstanceAs (Decidable (∀ u ∈ st.users, ∀ c ∈ st.courses, _ ↔ _))

/-- The roster-affecting operations of the system: the enrollment
coordinator's two operations and the admin user-deletion cascade. -/
inductive Op where
  | enroll (uid cid : Nat)
  | unenroll (uid cid : Nat)
  | removeUser (callerId targetId : Nat)

def applyOp (st : State) : Op → State
  | .enroll uid cid => (dbEnroll st uid cid).2
  | .unenroll uid cid => (dbUnenroll st uid cid).2
  | .removeUser callerId targetId => (deleteUser st callerId targetId).2

def applyOps (st : State) (ops : List Op) : State :=
  ops.foldl applyOp st

/-- No course roster references the given user id (spec §8: "Deleting a
user removes that user's id from every course roster referencing it"). -/
def NoRosterRef (st : State) (uid : Nat) : Prop :=
  ∀ c ∈ st.courses, uid ∉ c.enrolledStudents

instance (st : State) : Decidable (CapInv st) :=
  inferInstanceAs (Decidable (∀ c ∈ st.courses, c.enrolledStudents.length ≤ c.capacity))

instance (st : State) : Decidable (BidirInv st) :=
  inferInstanceAs (Decidable (∀ u ∈ st.users, ∀ c ∈ st.courses,
    (u.id ∈ c.enrolledStudents ↔ c.id ∈ u.enrolledCourses)))

instance (st : State) (uid : Nat) : Decidable (NoRosterRef st uid) :=
  inferInstanceAs (Decidable (∀ c ∈ st.courses, uid ∉ c.enrolledStudents))

/-! Concrete records mirroring the repository's demo data, used to
evaluate the theorems on closed inputs. -/

/-- The demo student (`demoUsers['student@test.com']`), enrolled in
course 12 below. -/
def alice : User :=
  { id := 1, name := "John Student", email := "student@test.com",
    password := some "password123", role := .student,
    studentId := some "S123456", department := "Computer Science",
    semester := 2, phone := none, address := none, profileImage := none,
    isActive := true, enrolledCourses := [12] }

/-- The demo admin (`demoUsers['admin@test.com']`). -/
def bob : User :=
  { id := 2, name := "Admin User", email := "admin@test.com",
    password := some "password123", role := .admin,
    studentId := none, department := "General", semester := 1,
    phone := none, address := none, profileImage := none,
    isActive := true, enrolledCourses := [] }

/-- An active course with free seats. -/
def c10 : Course :=
  { id := 10, courseCode := "CS101", capacity := 2, isActive := true,
    enrolledStudents := [] }

/-- A deactivated course. -/
def c11 : Course :=
  { id := 11, courseCode := "MATH201", capacity := 2, isActive := false,
    enrolledStudents := [] }

/-- An active course in which user 1 is already enrolled. -/
def c12 : Course :=
  { id := 12, courseCode := "ENG102", capacity := 3, isActive := true,
    enrolledStudents := [1] }

/-- An active course whose roster size equals its capacity. -/
def c13 : Course :=
  { id := 13, courseCode := "PHY101", capacity := 1, isActive := true,
    enrolledStudents := [4] }

/-- An example state satisfying both invariants. -/
def exSt : State :=
  { users := [alice, bob], courses := [c10, c11, c12, c13] }

/-- The user `app.post('/api/auth/register')` builds for the request used
in the evaluation theorems (next free id in `exSt` is 3). -/
def regUser : User :=
  { id := 3, name := "N", email := "new@t", password := some "pw",
    role := .student, studentId := some "S9", department := "General",
    semester := 1, phone := none, address := none,
    profileImage := some "https://via.placeholder.com/150",
    isActive := true, enrolledCourses := [] }

/-- A profile-update body that tries to overwrite every field, the
identity-bearing ones included. -/
def hostileBody : ProfileBody :=
  { name := some "X", department := some "Y", semester := some 9,
    phone := some "Z", address := some "W", profileImage := some "V",
    email := some "evil@t", role := some .admin, password := some "pwned",
    studentId := some "S.evil" }

/-! Helper lemmas about the store primitives. -/

theorem mem_of_findCourse {st : State} {cid : Nat} {c : Course}
    (h : findCourse st cid = some c) : c ∈ st.courses :=
  List.mem_of_find?_eq_some h

theorem id_of_findCourse {st : State} {cid : Nat} {c : Course}
    (h : findCourse st cid = some c) : c.id = cid := by
  have := List.find?_some h
  simpa using this

theorem mem_of_findUser {st : State} {uid : Nat} {u : User}
    (h : findUser st uid = some u) : u ∈ st.users :=
  List.mem_of_find?_eq_some h

theorem id_of_findUser {st : State} {uid : Nat} {u : User}
    (h : findUser st uid = some u) : u.id = uid := by
  have := List.find?_some h
  simpa using this

theorem mem_addToSet {l : List Nat} {x y : Nat} :
    x ∈ addToSet l y ↔ x ∈ l ∨ x = y := by
  unfold addToSet
  by_cases hy : y ∈ l
  · simp only [if_pos hy]
    constructor
    · exact Or.inl
    · rintro (hx | rfl)
      · exact hx
      · exact hy
  · simp [if_neg hy]

theorem mem_pull {l : List Nat} {x y : Nat} :
    x ∈ pull l y ↔ x ∈ l ∧ x ≠ y := by
  simp [pull]

/-- `find?` by key commutes with mapping a key-preserving function. -/
theorem find?_map_pres {α : Type} (key : α → Nat) (i : Nat) (g : α → α)
    (hg : ∀ a, key (g a) = key a) (l : List α) :
    (l.map g).find? (fun a => key a = i) = (l.find? (fun a => key a = i)).map g := by
  induction l with
  | nil => rfl
  | cons a t ih =>
    by_cases hk : key a = i
    · simp [List.find?_cons, hg, hk]
    · simp [List.find?_cons, hg, hk, ih]

/-- The database-backed enroll either leaves the state unchanged (on any
of its four rejections) or all guards passed and it performs its two
writes. -/
theorem dbEnroll_state_cases (st : State) (uid cid : Nat) :
    (dbEnroll st uid cid).2 = st ∨
    ∃ course, findCourse st cid = some course ∧ course.isActive = true ∧
      uid ∉ course.enrolledStudents ∧
      course.enrolledStudents.length < course.capacity ∧
      (dbEnroll st uid cid).2 =
        updateUser (setCourse st { course with enrolledStudents := course.enrolledStudents ++ [uid] })
          uid (fun u => { u with enrolledCourses := addToSet u.enrolledCourses cid }) := by
  unfold dbEnroll
  cases hfind : findCourse st cid with
  | none => left; rfl
  | some course =>
    by_cases hact : course.isActive = true
    · by_cases hin : uid ∈ course.enrolledStudents
      · left; simp [hact, hin]
      · by_cases hcap : course.capacity ≤ course.enrolledStudents.length
        · left; simp [hact, hin, hcap]
        · right
          exact ⟨course, rfl, hact, hin, Nat.lt_of_not_le hcap, by simp [hact, hin, hcap]⟩
    · left
      have hact' : course.isActive = false := by
        cases h : course.isActive
        · rfl
        · exact absurd h hact
      simp [hact']

/-- The demo-server enroll either leaves the state unchanged or its two
guards passed and it performs its two pushes.  There is no activity or
capacity guard. -/
theorem demoEnroll_state_cases (st : State) (uid cid : Nat) :
    (demoEnroll st uid cid).2 = st ∨
    ∃ course, findCourse st cid = some course ∧
      uid ∉ course.enrolledStudents ∧
      (demoEnroll st uid cid).2 =
        updateUser (setCourse st { course with enrolledStudents := course.enrolledStudents ++ [uid] })
          uid (fun u => { u with enrolledCourses := u.enrolledCourses ++ [cid] }) := by
  unfold demoEnroll
  cases hfind : findCourse st cid with
  | none => left; rfl
  | some course =>
    by_cases hin : uid ∈ course.enrolledStudents
    · left; simp [hin]
    · right
      exact ⟨course, rfl, hin, by simp [hin]⟩

/-- The database-backed unenroll either leaves the state unchanged or the
student was enrolled and it performs its two removals. -/
theorem dbUnenroll_state_cases (st : State) (uid cid : Nat) :
    (dbUnenroll st uid cid).2 = st ∨
    ∃ course, findCourse st cid = some course ∧
      uid ∈ course.enrolledStudents ∧
      (dbUnenroll st uid cid).2 =
        updateUser (setCourse st { course with enrolledStudents := pull course.enrolledStudents uid })
          uid (fun u => { u with enrolledCourses := pull u.enrolledCourses cid }) := by
  unfold dbUnenroll
  cases hfind : findCourse st cid with
  | none => left; rfl
  | some course =>
    by_cases hin : uid ∈ course.enrolledStudents
    · right
      exact ⟨course, rfl, hin, by simp [hin]⟩
    · left; simp [hin]

/-- The demo-server unenroll handler performs exactly the same checks and
removals as the database-backed one. -/
theorem demoUnenroll_eq_dbUnenroll (st : State) (uid cid : Nat) :
    demoUnenroll st uid cid = dbUnenroll st uid cid := rfl

/-- The admin delete-user either leaves the state unchanged (missing
target or self-deletion) or removes the user and pulls its id from every
roster. -/
theorem deleteUser_state_cases (st : State) (callerId targetId : Nat) :
    (deleteUser st callerId targetId).2 = st ∨
    ∃ user, findUser st targetId = some user ∧
      (deleteUser st callerId targetId).2 =
        { users := st.users.filter (fun u => u.id ≠ user.id),
          courses := st.courses.map (fun c =>
            { c with enrolledStudents := pull c.enrolledStudents user.id }) } := by
  unfold deleteUser
  cases hfind : findUser st targetId with
  | none => left; rfl
  | some user =>
    by_cases hself : user.id = callerId
    · left; simp [hself]
    · right
      exact ⟨user, rfl, by simp [hself]⟩

/-! Invariant preservation lemmas. -/

/-- The success state of either enroll handler preserves the capacity
invariant: the roster grows by one only when it was strictly below
capacity. -/
theorem capInv_enroll_success {st : State} {uid : Nat} {course : Course}
    (h : CapInv st)
    (hlt : course.enrolledStudents.length < course.capacity)
    (f : User → User) (uid' : Nat) :
    CapInv (updateUser (setCourse st { course with enrolledStudents := course.enrolledStudents ++ [uid] })
      uid' f) := by
  intro c hc
  simp only [updateUser, setCourse, List.mem_map] at hc
  obtain ⟨d, _hd, rfl⟩ := hc
  by_cases hid : d.id = course.id
  · rw [if_pos hid]
    show (course.enrolledStudents ++ [uid]).length ≤ course.capacity
    simp only [List.length_append, List.length_cons, List.length_nil]
    omega
  · rw [if_neg hid]
    exact h d _hd

/-- The success state of either unenroll handler preserves the capacity
invariant: rosters only shrink. -/
theorem capInv_unenroll_success {st : State} {uid : Nat} {course : Course}
    (h : CapInv st) (hcmem : course ∈ st.courses)
    (f : User → User) (uid' : Nat) :
    CapInv (updateUser (setCourse st { course with enrolledStudents := pull course.enrolledStudents uid })
      uid' f) := by
  intro c hc
  simp only [updateUser, setCourse, List.mem_map] at hc
  obtain ⟨d, _hd, rfl⟩ := hc
  by_cases hid : d.id = course.id
  · rw [if_pos hid]
    show (pull course.enrolledStudents uid).length ≤ course.capacity
    calc (pull course.enrolledStudents uid).length
        ≤ course.enrolledStudents.length := List.length_filter_le _ _
      _ ≤ course.capacity := h course hcmem
  · rw [if_neg hid]
    exact h d _hd

theorem capInv_applyOp (st : State) (op : Op) (h : CapInv st) :
    CapInv (applyOp st op) := by
  cases op with
  | enroll uid cid =>
    rcases dbEnroll_state_cases st uid cid with heq | ⟨course, _, _, _, hlt, heq⟩
    · simpa [applyOp, heq] using h
    · simpa [applyOp, heq] using capInv_enroll_success h hlt _ _
  | unenroll uid cid =>
    rcases dbUnenroll_state_cases st uid cid with heq | ⟨course, hfind, _, heq⟩
    · simpa [applyOp, heq] using h
    · simpa [applyOp, heq] using
        capInv_unenroll_success h (mem_of_findCourse hfind) _ _
  | removeUser callerId targetId =>
    rcases deleteUser_state_cases st callerId targetId with heq | ⟨user, _, heq⟩
    · simpa [applyOp, heq] using h
    · simp only [applyOp, heq]
      intro c hc
      simp only [List.mem_map] at hc
      obtain ⟨d, hd, rfl⟩ := hc
      calc (pull d.enrolledStudents user.id).length
          ≤ d.enrolledStudents.length := List.length_filter_le _ _
        _ ≤ d.capacity := h d hd

theorem capInv_applyOps (st : State) (ops : List Op) (h : CapInv st) :
    CapInv (applyOps st ops) := by
  induction ops generalizing st with
  | nil => exact h
  | cons op rest ih => exact ih _ (capInv_applyOp st op h)

/-- The success state of an enroll handler preserves bidirectional
consistency.  `addC` is the user-side list update (`$addToSet` for the
database handler, a plain push for the demo handler); all that matters
is its membership behaviour. -/
theorem bidir_enroll_success {st : State} {uid cid : Nat} {course : Course}
    (h : BidirInv st) (hcmem : course ∈ st.courses) (hcid : course.id = cid)
    (addC : List Nat → List Nat)
    (haddC : ∀ l x, x ∈ addC l ↔ x ∈ l ∨ x = cid) :
    BidirInv (updateUser (setCourse st { course with enrolledStudents := course.enrolledStudents ++ [uid] })
      uid (fun u => { u with enrolledCourses := addC u.enrolledCourses })) := by
  intro u' hu' c' hc'
  simp only [updateUser, setCourse, List.mem_map] at hu' hc'
  obtain ⟨u0, hu0, rfl⟩ := hu'
  obtain ⟨d0, hd0, rfl⟩ := hc'
  by_cases hd : d0.id = course.id
  · rw [if_pos hd]
    by_cases hu : u0.id = uid
    · rw [if_pos hu]
      apply iff_of_true
      · show u0.id ∈ course.enrolledStudents ++ [uid]
        simp [hu, List.mem_append]
      · show course.id ∈ addC u0.enrolledCourses
        rw [haddC]
        exact Or.inr hcid
    · rw [if_neg hu]
      show u0.id ∈ course.enrolledStudents ++ [uid] ↔ course.id ∈ u0.enrolledCourses
      have hiff := h u0 hu0 course hcmem
      simp [List.mem_append, hu, hiff]
  · rw [if_neg hd]
    have hd' : d0.id ≠ cid := by rw [← hcid]; exact hd
    by_cases hu : u0.id = uid
    · rw [if_pos hu]
      show u0.id ∈ d0.enrolledStudents ↔ d0.id ∈ addC u0.enrolledCourses
      have hiff := h u0 hu0 d0 hd0
      rw [haddC]
      simp [hd', hiff]
    · rw [if_neg hu]
      exact h u0 hu0 d0 hd0

/-- The success state of either unenroll handler preserves bidirectional
consistency. -/
theorem bidir_unenroll_success {st : State} {uid cid : Nat} {course : Course}
    (h : BidirInv st) (hcmem : course ∈ st.courses) (hcid : course.id = cid) :
    BidirInv (updateUser (setCourse st { course with enrolledStudents := pull course.enrolledStudents uid })
      uid (fun u => { u with enrolledCourses := pull u.enrolledCourses cid })) := by
  intro u' hu' c' hc'
  simp only [updateUser, setCourse, List.mem_map] at hu' hc'
  obtain ⟨u0, hu0, rfl⟩ := hu'
  obtain ⟨d0, hd0, rfl⟩ := hc'
  by_cases hd : d0.id = course.id
  · rw [if_pos hd]
    by_cases hu : u0.id = uid
    · rw [if_pos hu]
      apply iff_of_false
      · show u0.id ∉ pull course.enrolledStudents uid
        simp [mem_pull, hu]
      · show course.id ∉ pull u0.enrolledCourses cid
        simp [mem_pull, hcid]
    · rw [if_neg hu]
      show u0.id ∈ pull course.enrolledStudents uid ↔ course.id ∈ u0.enrolledCourses
      have hiff := h u0 hu0 course hcmem
      simp [mem_pull, hu, hiff]
  · rw [if_neg hd]
    have hd' : d0.id ≠ cid := by rw [← hcid]; exact hd
    by_cases hu : u0.id = uid
    · rw [if_pos hu]
      show u0.id ∈ d0.enrolledStudents ↔ d0.id ∈ pull u0.enrolledCourses cid
      have hiff := h u0 hu0 d0 hd0
      simp [mem_pull, hd', hiff]
    · rw [if_neg hu]
      exact h u0 hu0 d0 hd0

/-- `findCourse` after `setCourse` is `findCourse` before, with the
written course substituted. -/
theorem findCourse_setCourse (st : State) (c : Course) (cid : Nat) :
    findCourse (setCourse st c) cid =
      (findCourse st cid).map (fun d => if d.id = c.id then c else d) := by
  unfold findCourse setCourse
  refine find?_map_pres Course.id cid _ (fun d => ?_) st.courses
  by_cases hd : d.id = c.id
  · rw [if_pos hd]; exact hd.symm
  · rw [if_neg hd]

/-- `findUser` after `updateUser` is `findUser` before, with the update
applied to the hit. -/
theorem findUser_updateUser (st : State) (uid tid : Nat) (f : User → User)
    (hf : ∀ u, (f u).id = u.id) :
    findUser (updateUser st uid f) tid =
      (findUser st tid).map (fun u => if u.id = uid then f u else u) := by
  unfold findUser updateUser
  refine find?_map_pres User.id tid _ (fun u => ?_) st.users
  by_cases hu : u.id = uid
  · rw [if_pos hu]; exact hf u
  · rw [if_neg hu]

/-- The fault-free run of the faulting model is the plain handler. -/
theorem dbEnrollWithFault_false (st : State) (uid cid : Nat) :
    dbEnrollWithFault st uid cid false = dbEnroll st uid cid := by
  unfold dbEnrollWithFault dbEnroll
  cases findCourse st cid with
  | none => rfl
  | some course => simp

/-! Claim theorems. -/

/-- C1: starting from any state whose rosters respect their capacities,
every sequence of enroll / unenroll / delete-user operations keeps every
roster at or below its course's capacity; and an enroll request against
an active course whose roster size equals its capacity (the student not
being in it) returns CapacityExceeded and leaves both stores unchanged. -/
theorem capacity_invariant_holds (st : State) (h : CapInv st) :
    (∀ ops : List Op, CapInv (applyOps st ops)) ∧
    (∀ uid cid course, findCourse st cid = some course → course.isActive = true →
      uid ∉ course.enrolledStudents →
      course.enrolledStudents.length = course.capacity →
      dbEnroll st uid cid = (.capacityExceeded, st)) := by
  constructor
  · intro ops
    exact capInv_applyOps st ops h
  · intro uid cid course hfind hact hnin hfull
    have hle : course.capacity ≤ course.enrolledStudents.length := le_of_eq hfull.symm
    simp [dbEnroll, hfind, hact, hnin, hle]

/-- C1 witness: a concrete run of three operations, and the concrete full
course `c13` rejecting an enrollment. -/
theorem capacity_invariant_holds_witness :
    CapInv (applyOps exSt [Op.enroll 1 10, Op.unenroll 1 12, Op.removeUser 2 1]) ∧
    dbEnroll exSt 1 13 = (.capacityExceeded, exSt) :=
  ⟨(capacity_invariant_holds exSt (by decide)).1 [Op.enroll 1 10, Op.unenroll 1 12, Op.removeUser 2 1],
   (capacity_invariant_holds exSt (by decide)).2 1 13 c13 rfl rfl (by decide) rfl⟩

/-- C2: bidirectional consistency is preserved by each of the four
enroll/unenroll handlers (database-backed and demo-server). -/
theorem bidir_invariant_preserved (st : State) (uid cid : Nat) (h : BidirInv st) :
    BidirInv (dbEnroll st uid cid).2 ∧ BidirInv (dbUnenroll st uid cid).2 ∧
    BidirInv (demoEnroll st uid cid).2 ∧ BidirInv (demoUnenroll st uid cid).2 := by
  have hun : BidirInv (dbUnenroll st uid cid).2 := by
    rcases dbUnenroll_state_cases st uid cid with heq | ⟨course, hfind, _, heq⟩
    · rw [heq]; exact h
    · rw [heq]
      exact bidir_unenroll_success h (mem_of_findCourse hfind) (id_of_findCourse hfind)
  refine ⟨?_, hun, ?_, ?_⟩
  · rcases dbEnroll_state_cases st uid cid with heq | ⟨course, hfind, _, _, _, heq⟩
    · rw [heq]; exact h
    · rw [heq]
      exact bidir_enroll_success h (mem_of_findCourse hfind) (id_of_findCourse hfind)
        (fun l => addToSet l cid) (fun l x => mem_addToSet)
  · rcases demoEnroll_state_cases st uid cid with heq | ⟨course, hfind, _, heq⟩
    · rw [heq]; exact h
    · rw [heq]
      exact bidir_enroll_success h (mem_of_findCourse hfind) (id_of_findCourse hfind)
        (fun l => l ++ [cid]) (fun l x => by simp)
  · rw [demoUnenroll_eq_dbUnenroll]
    exact hun

/-- C2 witness: the invariant survives all four handlers on the concrete
consistent state `exSt`. -/
theorem bidir_invariant_preserved_witness :
    BidirInv (dbEnroll exSt 1 10).2 ∧ BidirInv (dbUnenroll exSt 1 10).2 ∧
    BidirInv (demoEnroll exSt 1 10).2 ∧ BidirInv (demoUnenroll exSt 1 10).2 :=
  bidir_invariant_preserved exSt 1 10 (by decide)

/-- C3: the enrollment's two writes are not atomic.  Starting from the
consistent state `exSt`, a store fault between `course.save()` and
`User.findByIdAndUpdate` during enroll(student 1, course 10) leaves a
state in which course 10's roster contains student 1 while student 1's
`enrolledCourses` does not contain course 10 — a one-sided state that the
handler has already persisted, contradicting the claimed atomicity. -/
theorem enroll_fault_observable :
    BidirInv exSt ∧
    (dbEnrollWithFault exSt 1 10 true).1 = EnrollResult.serverFault ∧
    (∃ c ∈ (dbEnrollWithFault exSt 1 10 true).2.courses, (1 : Nat) ∈ c.enrolledStudents) ∧
    (∀ u ∈ (dbEnrollWithFault exSt 1 10 true).2.users, (10 : Nat) ∉ u.enrolledCourses) ∧
    ¬ BidirInv (dbEnrollWithFault exSt 1 10 true).2 := by
  refine ⟨by decide, by decide, by decide, by decide, by decide⟩

/-- C4: the database-backed enroll handler's outcomes, in the handler's
precedence order: NotFound when the course is missing; Inactive when it
exists but is deactivated; Conflict when the student is already in the
roster (a second attempt is rejected, not a no-op); CapacityExceeded when
the roster is full; otherwise success.  Every rejection leaves the state
unchanged. -/
theorem enroll_error_cases (st : State) (uid cid : Nat) :
    (findCourse st cid = none → dbEnroll st uid cid = (.notFound, st)) ∧
    (∀ c, findCourse st cid = some c → c.isActive = false →
      dbEnroll st uid cid = (.inactive, st)) ∧
    (∀ c, findCourse st cid = some c → c.isActive = true → uid ∈ c.enrolledStudents →
      dbEnroll st uid cid = (.conflict, st)) ∧
    (∀ c, findCourse st cid = some c → c.isActive = true → uid ∉ c.enrolledStudents →
      c.capacity ≤ c.enrolledStudents.length →
      dbEnroll st uid cid = (.capacityExceeded, st)) ∧
    (∀ c, findCourse st cid = some c → c.isActive = true → uid ∉ c.enrolledStudents →
      c.enrolledStudents.length < c.capacity →
      (dbEnroll st uid cid).1 = .ok) := by
  refine ⟨?_, ?_, ?_, ?_, ?_⟩
  · intro hfind
    simp [dbEnroll, hfind]
  · intro c hfind hact
    simp [dbEnroll, hfind, hact]
  · intro c hfind hact hin
    simp [dbEnroll, hfind, hact, hin]
  · intro c hfind hact hnin hcap
    simp [dbEnroll, hfind, hact, hnin, hcap]
  · intro c hfind hact hnin hlt
    have hcap : ¬ c.capacity ≤ c.enrolledStudents.length := Nat.not_le_of_lt hlt
    simp [dbEnroll, hfind, hact, hnin, hcap]

/-- C4 witness: all five outcomes on concrete courses of `exSt`. -/
theorem enroll_error_cases_witness :
    dbEnroll exSt 1 99 = (.notFound, exSt) ∧
    dbEnroll exSt 1 11 = (.inactive, exSt) ∧
    dbEnroll exSt 1 12 = (.conflict, exSt) ∧
    dbEnroll exSt 1 13 = (.capacityExceeded, exSt) ∧
    (dbEnroll exSt 1 10).1 = .ok :=
  ⟨(enroll_error_cases exSt 1 99).1 rfl,
   (enroll_error_cases exSt 1 11).2.1 c11 rfl rfl,
   (enroll_error_cases exSt 1 12).2.2.1 c12 rfl rfl (by decide),
   (enroll_error_cases exSt 1 13).2.2.2.1 c13 rfl rfl (by decide) (by decide),
   (enroll_error_cases exSt 1 10).2.2.2.2 c10 rfl rfl (by decide) (by decide)⟩

/-- C5: both unenroll handlers return NotFound when the course is
missing; Conflict when the student is not in the roster, leaving the
state unchanged; and on success remove the student from the course's
roster and the course from the student's enrolled list symmetrically
(the demo handler's behaviour coincides with the database-backed one). -/
theorem unenroll_behaviour (st : State) (uid cid : Nat) :
    (findCourse st cid = none →
      dbUnenroll st uid cid = (.notFound, st) ∧
      demoUnenroll st uid cid = (.notFound, st)) ∧
    (∀ c, findCourse st cid = some c → uid ∉ c.enrolledStudents →
      dbUnenroll st uid cid = (.conflict, st) ∧
      demoUnenroll st uid cid = (.conflict, st)) ∧
    (∀ c, findCourse st cid = some c → uid ∈ c.enrolledStudents →
      (dbUnenroll st uid cid).1 = .ok ∧
      findCourse (dbUnenroll st uid cid).2 cid =
        some { c with enrolledStudents := pull c.enrolledStudents uid } ∧
      (∀ u, findUser st uid = some u →
        findUser (dbUnenroll st uid cid).2 uid =
          some { u with enrolledCourses := pull u.enrolledCourses cid }) ∧
      demoUnenroll st uid cid = dbUnenroll st uid cid) := by
  refine ⟨?_, ?_, ?_⟩
  · intro hfind
    rw [demoUnenroll_eq_dbUnenroll]
    constructor <;> simp [dbUnenroll, hfind]
  · intro c hfind hnin
    rw [demoUnenroll_eq_dbUnenroll]
    constructor <;> simp [dbUnenroll, hfind, hnin]
  · intro c hfind hin
    have heq : dbUnenroll st uid cid =
        (.ok, updateUser
          (setCourse st { c with enrolledStudents := pull c.enrolledStudents uid })
          uid (fun u => { u with enrolledCourses := pull u.enrolledCourses cid })) := by
      simp [dbUnenroll, hfind, hin]
    refine ⟨by rw [heq], ?_, ?_, demoUnenroll_eq_dbUnenroll st uid cid⟩
    · rw [heq]
      show findCourse
        (setCourse st { c with enrolledStudents := pull c.enrolledStudents uid }) cid = _
      rw [findCourse_setCourse, hfind]
      simp
    · intro u hu
      rw [heq]
      show findUser (updateUser
        (setCourse st { c with enrolledStudents := pull c.enrolledStudents uid })
        uid (fun v => { v with enrolledCourses := pull v.enrolledCourses cid })) uid = _
      rw [findUser_updateUser
        (setCourse st { c with enrolledStudents := pull c.enrolledStudents uid }) uid uid
        (fun v => { v with enrolledCourses := pull v.enrolledCourses cid })
        (fun v => rfl)]
      have hY : findUser
          (setCourse st { c with enrolledStudents := pull c.enrolledStudents uid }) uid =
          findUser st uid := rfl
      rw [hY, hu]
      have hid : u.id = uid := id_of_findUser hu
      simp [hid]

/-- C5 witness: all three outcomes on concrete courses of `exSt`. -/
theorem unenroll_behaviour_witness :
    dbUnenroll exSt 1 99 = (.notFound, exSt) ∧
    dbUnenroll exSt 1 10 = (.conflict, exSt) ∧
    (dbUnenroll exSt 1 12).1 = .ok ∧
    findCourse (dbUnenroll exSt 1 12).2 12 =
      some { c12 with enrolledStudents := pull c12.enrolledStudents 1 } ∧
    findUser (dbUnenroll exSt 1 12).2 1 =
      some { alice with enrolledCourses := pull alice.enrolledCourses 12 } :=
  ⟨((unenroll_behaviour exSt 1 99).1 rfl).1,
   ((unenroll_behaviour exSt 1 10).2.1 c10 rfl (by decide)).1,
   ((unenroll_behaviour exSt 1 12).2.2 c12 rfl (by decide)).1,
   ((unenroll_behaviour exSt 1 12).2.2 c12 rfl (by decide)).2.1,
   ((unenroll_behaviour exSt 1 12).2.2 c12 rfl (by decide)).2.2.1 alice rfl⟩

/-- C6 counterexample: the claim says a self status/role change "fails
with Forbidden", i.e. the 403 status this codebase uses for
authorization failures.  On the concrete state `exSt` the admin (user 2)
targeting their own account gets HTTP 400 ("Cannot deactivate your own
account" / "Cannot change your own role"), not 403 — though the account
does remain unchanged (and active). -/
theorem self_change_status_is_400_not_403 :
    updateStatus exSt 2 2 = (400, exSt) ∧
    updateRole exSt 2 2 (some Role.student) = (400, exSt) ∧
    (updateStatus exSt 2 2).1 ≠ 403 ∧
    (updateRole exSt 2 2 (some Role.student)).1 ≠ 403 ∧
    (findUser exSt 2).map User.isActive = some true := by
  refine ⟨by decide, by decide, by decide, by decide, by decide⟩

/-- C6 (amended): for every admin caller, a request to change the active
status or the role of the caller's own account is rejected with HTTP 400
(Bad Request), not 403 Forbidden, and leaves the whole state — in
particular the account — unchanged. -/
theorem self_account_change_rejected (st : State) (callerId : Nat) (u : User)
    (hfind : findUser st callerId = some u) :
    updateStatus st callerId callerId = (400, st) ∧
    (∀ r, updateRole st callerId callerId (some r) = (400, st)) := by
  have hid : u.id = callerId := id_of_findUser hfind
  constructor
  · simp [updateStatus, hfind, hid]
  · intro r
    simp [updateRole, hfind, hid]

/-- C6 witness: the concrete admin of `exSt` targeting their own
account. -/
theorem self_account_change_rejected_witness :
    updateStatus exSt 2 2 = (400, exSt) ∧
    updateRole exSt 2 2 (some Role.instructor) = (400, exSt) :=
  ⟨(self_account_change_rejected exSt 2 bob rfl).1,
   (self_account_change_rejected exSt 2 bob rfl).2 Role.instructor⟩

/-- C7: a successful admin delete-user run removes the target's id from
every course roster: afterwards no course's `enrolledStudents` contains
it. -/
theorem deleteUser_removes_roster_references (st : State) (callerId targetId : Nat)
    (u : User) (hfind : findUser st targetId = some u) (hne : targetId ≠ callerId) :
    (deleteUser st callerId targetId).1 = 200 ∧
    NoRosterRef (deleteUser st callerId targetId).2 targetId := by
  have hid : u.id = targetId := id_of_findUser hfind
  have hself : ¬ (u.id = callerId) := by rw [hid]; exact hne
  have heq : deleteUser st callerId targetId =
      (200, { users := st.users.filter (fun v => v.id ≠ u.id),
              courses := st.courses.map (fun c =>
                { c with enrolledStudents := pull c.enrolledStudents u.id }) }) := by
    simp [deleteUser, hfind, hself]
  rw [heq]
  refine ⟨rfl, ?_⟩
  intro c hc
  simp only [List.mem_map] at hc
  obtain ⟨d, _hd, rfl⟩ := hc
  show targetId ∉ pull d.enrolledStudents u.id
  simp [mem_pull, hid]

/-- C7 witness: deleting user 1 (who sits in course 12's roster in
`exSt`) clears every roster reference to id 1. -/
theorem deleteUser_removes_roster_references_witness :
    (deleteUser exSt 2 1).1 = 200 ∧ NoRosterRef (deleteUser exSt 2 1).2 1 :=
  deleteUser_removes_roster_references exSt 2 1 alice rfl (by decide)

/-- C8: both profile-update handlers leave every user's email, role and
password untouched, whatever the request body supplies for them: the
projection of the store onto those three fields is unchanged. -/
theorem profile_update_preserves_identity_fields (st : State) (uid : Nat) (b : ProfileBody) :
    (studentProfileUpdate st uid b).users.map (fun u => (u.email, u.role, u.password)) =
      st.users.map (fun u => (u.email, u.role, u.password)) ∧
    (demoProfileUpdate st uid b).users.map (fun u => (u.email, u.role, u.password)) =
      st.users.map (fun u => (u.email, u.role, u.password)) := by
  constructor
  · simp only [studentProfileUpdate, updateUser, List.map_map]
    congr 1
    funext u
    by_cases h : u.id = uid <;> simp [h, applyProfileBody]
  · simp only [demoProfileUpdate, updateUser, List.map_map]
    congr 1
    funext u
    by_cases h : u.id = uid <;> simp [h, applyProfileBody]

/-- C9: the admin role update changes only the role: because the source
tests `user.role === 'student'` after `user.role = role` has already run,
the branch clearing `studentId`, `department` and `semester` never fires,
so the stored user afterwards is exactly the old record with the new
role. -/
theorem role_update_preserves_student_fields (st : State) (callerId targetId : Nat)
    (r : Role) (u : User) (hfind : findUser st targetId = some u)
    (hne : targetId ≠ callerId) :
    (updateRole st callerId targetId (some r)).1 = 200 ∧
    findUser (updateRole st callerId targetId (some r)).2 targetId =
      some { u with role := r } := by
  have hid : u.id = targetId := id_of_findUser hfind
  have hself : ¬ (u.id = callerId) := by rw [hid]; exact hne
  have hdead : ∀ v : User,
      (let v1 := { v with role := r }
       if v1.role = Role.student ∧ r ≠ Role.student then
         { v1 with studentId := none, department := "General", semester := 1 }
       else v1) = { v with role := r } := by
    intro v
    by_cases hr : r = Role.student <;> simp [hr]
  constructor
  · simp [updateRole, hfind, hself]
  · have hstate : (updateRole st callerId targetId (some r)).2 =
        updateUser st u.id (fun v =>
          let v1 := { v with role := r }
          if v1.role = Role.student ∧ r ≠ Role.student then
            { v1 with studentId := none, department := "General", semester := 1 }
          else v1) := by
      simp [updateRole, hfind, hself]
    rw [hstate]
    rw [findUser_updateUser st u.id targetId _ (fun v => by rw [hdead v])]
    rw [hfind]
    simp [hdead u]

/-- C9 witness: promoting the concrete student (id 1, with studentId
S123456, department and semester set) to instructor leaves those fields
exactly as they were. -/
theorem role_update_preserves_student_fields_witness :
    (updateRole exSt 2 1 (some Role.instructor)).1 = 200 ∧
    findUser (updateRole exSt 2 1 (some Role.instructor)).2 1 =
      some { alice with role := Role.instructor } :=
  role_update_preserves_student_fields exSt 2 1 Role.instructor alice rfl (by decide)

/-- C10: no success response of login, register, current-user / student
profile, or the admin user list carries a password: every user object
they return has its password field removed, whatever the stored
password was. -/
theorem responses_omit_password :
    (∀ st e p u, login st e p = some u → u.password = none) ∧
    (∀ st n e p r sid u st', register st n e p r sid = some (u, st') →
      u.password = none) ∧
    (∀ u, (currentUserResponse u).password = none) ∧
    (∀ st u, u ∈ adminUsersList st → u.password = none) := by
  refine ⟨?_, ?_, ?_, ?_⟩
  · intro st e p u h
    unfold login at h
    split at h
    · cases h
    · split at h
      · obtain rfl := Option.some_inj.mp h
        rfl
      · cases h
  · intro st n e p r sid u st' h
    unfold register at h
    split at h
    · cases h
    · obtain hpair := Option.some_inj.mp h
      obtain ⟨h1, _h2⟩ := Prod.mk.inj hpair
      rw [← h1]
      rfl
  · intro u
    rfl
  · intro st u h
    simp only [adminUsersList, List.mem_map] at h
    obtain ⟨v, _hv, rfl⟩ := h
    rfl

/-- C10 witness: concrete login, register, current-user and admin-list
responses for `exSt`, with the stored passwords non-empty. -/
theorem responses_omit_password_witness :
    (sanitizeUser alice).password = none ∧
    (sanitizeUser regUser).password = none ∧
    (currentUserResponse alice).password = none ∧
    (sanitizeUser bob).password = none :=
  ⟨responses_omit_password.1 exSt "student@test.com" "password123" (sanitizeUser alice) rfl,
   responses_omit_password.2.1 exSt "N" "new@t" "pw" Role.student (some "S9")
     (sanitizeUser regUser) { exSt with users := exSt.users ++ [regUser] } rfl,
   responses_omit_password.2.2.1 alice,
   responses_omit_password.2.2.2 exSt (sanitizeUser bob) (by decide)⟩

end StudentDashboard
